import Mathlib

/-!
Shallow embedding of the JSON-RPC envelope crate (`crates/json-rpc`) and the
response-correlation engine (`crates/tower-lsp/src/service/client`) of the
`tower-lsp` repository, together with proofs of its specified properties.

JSON values are modelled by an inductive `Json`; serde (de)serialization of
each envelope type is modelled as a function to/from `Json`, following the
hand-written `Serialize`/`Deserialize` impls in the source.  The generic
method-descriptor bounds (`lsp_types::request::Request`,
`lsp_types::notification::Notification`) become structures carrying the
constant method name and explicit codec functions standing for the serde
instances of the associated `Params`/`Result` types.
-/

/-- JSON values.  Numbers are modelled as integers, which covers every value
the embedded code manipulates (identifiers are `i32` or strings). -/
inductive Json where
  | null
  | bool (b : Bool)
  | num (n : Int)
  | str (s : String)
  | arr (elems : List Json)
  | obj (fields : List (String × Json))

/-- Whether a JSON value is `null`. -/
def Json.isNull : Json → Bool
  | Json.null => true
  | _ => false

/-- The field list of a JSON object (empty for non-objects). -/
def Json.objFields : Json → List (String × Json)
  | Json.obj fields => fields
  | _ => []

/-- First value bound to `key` in an ordered JSON-object field list. -/
def getField (fields : List (String × Json)) (key : String) : Option Json :=
  match fields with
  | [] => none
  | (k, v) :: rest => if k = key then some v else getField rest key

/-- Whether `key` occurs in an ordered JSON-object field list. -/
def hasField (fields : List (String × Json)) (key : String) : Bool :=
  (getField fields key).isSome

/-- Number of occurrences of `key` in an ordered JSON-object field list. -/
def countField (fields : List (String × Json)) (key : String) : Nat :=
  match fields with
  | [] => 0
  | (k, _) :: rest => (if k = key then 1 else 0) + countField rest key

/-- Deserialization failures, mirroring the `serde::de::Error` values the
source produces: `unknownVariant` models `serde::de::Error::unknown_variant`
(the received value plus the list of accepted ones), the rest model the
generic shape errors of the derived deserializers. -/
inductive DeError where
  | unknownVariant (got : String) (expected : List String)
  | invalidType (expected : String)
  | missingField (name : String)
  | bothResultAndError
  | neitherResultNorError
deriving DecidableEq

/-- The one protocol version literal accepted by `version.rs`. -/
def JSON_RPC_VERSION_STR : String := "2.0"

/-- Serialization of the zero-data `Version` marker: the literal string. -/
def Version.serialize : Json := Json.str JSON_RPC_VERSION_STR

/-- Deserialization of the `Version` marker (`version.rs`): expects a string,
accepts exactly `"2.0"`, and otherwise fails with `unknown_variant` naming the
received string and the single accepted literal. -/
def Version.deserialize (j : Json) : Except DeError Unit :=
  match j with
  | Json.str s =>
      if s = JSON_RPC_VERSION_STR then Except.ok ()
      else Except.error (DeError.unknownVariant s [JSON_RPC_VERSION_STR])
  | _ => Except.error (DeError.invalidType "string")

/-- Request identifiers (`lsp_types::NumberOrString`): a number or a string. -/
inductive NumberOrString where
  | number (n : Int)
  | string (s : String)
deriving DecidableEq

/-- Untagged serde serialization of `NumberOrString`. -/
def NumberOrString.serialize : NumberOrString → Json
  | NumberOrString.number n => Json.num n
  | NumberOrString.string s => Json.str s

/-- Untagged serde deserialization of `NumberOrString`. -/
def NumberOrString.deserialize (j : Json) : Except DeError NumberOrString :=
  match j with
  | Json.num n => Except.ok (NumberOrString.number n)
  | Json.str s => Except.ok (NumberOrString.string s)
  | _ => Except.error (DeError.invalidType "number or string")

/-- Response identifiers (`response.rs`): a number, a string, or the
discouraged `null` sentinel. -/
inductive ResponseId where
  | Number (n : Int)
  | String (s : String)
  | Null
deriving DecidableEq

/-- Untagged serde serialization of `ResponseId`. -/
def ResponseId.serialize : ResponseId → Json
  | ResponseId.Number n => Json.num n
  | ResponseId.String s => Json.str s
  | ResponseId.Null => Json.null

/-- Untagged serde deserialization of `ResponseId`. -/
def ResponseId.deserialize (j : Json) : Except DeError ResponseId :=
  match j with
  | Json.num n => Except.ok (ResponseId.Number n)
  | Json.str s => Except.ok (ResponseId.String s)
  | Json.null => Except.ok ResponseId.Null
  | _ => Except.error (DeError.invalidType "number, string or null")

/-- Modelled from the spec: the JSON-RPC error payload (the crate's `error.rs`
is not among the provided sources; the spec requires an error object carrying
at least a numeric code and a message). -/
structure Error where
  code : Int
  message : String
deriving DecidableEq

/-- Modelled from the spec: serde serialization of the error payload. -/
def Error.serialize (e : Error) : Json :=
  Json.obj [("code", Json.num e.code), ("message", Json.str e.message)]

/-- Modelled from the spec: serde deserialization of the error payload. -/
def Error.deserialize (j : Json) : Except DeError Error :=
  match j with
  | Json.obj fields =>
    match getField fields "code", getField fields "message" with
    | some (Json.num c), some (Json.str m) => Except.ok (Error.mk c m)
    | _, _ => Except.error (DeError.invalidType "error object")
  | _ => Except.error (DeError.invalidType "map")

/-- A request method descriptor (the `lsp_types::request::Request` trait): a
constant method name plus associated `Params` and `Result` types.  The
envelopes are generic over the serde instances of those associated types,
modelled here as explicit codec functions. -/
structure Request where
  METHOD : String
  Params : Type
  Result : Type
  encodeParams : Params → Json
  decodeParams : Json → Except DeError Params
  encodeResult : Result → Json
  decodeResult : Json → Except DeError Result

/-- A notification method descriptor (the
`lsp_types::notification::Notification` trait): a constant method name plus an
associated `Params` type with its serde codec. -/
structure NotificationDescriptor where
  METHOD : String
  Params : Type
  encodeParams : Params → Json
  decodeParams : Json → Except DeError Params

/-- Deserialization of a plain JSON string. -/
def decodeString (j : Json) : Except DeError String :=
  match j with
  | Json.str s => Except.ok s
  | _ => Except.error (DeError.invalidType "string")

/-- Serde deserialization of an `Option`-typed struct field: a missing field
and an explicit `null` both give `none`; any other value is decoded. -/
def decodeOptionField {α : Type} (dec : Json → Except DeError α)
    (fields : List (String × Json)) (key : String) : Except DeError (Option α) :=
  match getField fields key with
  | none => Except.ok none
  | some v => if v.isNull then Except.ok none else (dec v).map some

/-- The request envelope (`request.rs`): an identifier plus optional params,
generic over the method descriptor. -/
structure RequestMessage (R : Request) where
  id : NumberOrString
  params : Option R.Params

/-- Serialization of a request envelope (`request.rs`): fields in order
`jsonrpc`, `id`, `method`, then `params` only when present. -/
def RequestMessage.serialize {R : Request} (m : RequestMessage R) : Json :=
  Json.obj
    ([("jsonrpc", Version.serialize),
      ("id", m.id.serialize),
      ("method", Json.str R.METHOD)] ++
      (match m.params with
       | some p => [("params", R.encodeParams p)]
       | none => []))

/-- Deserialization of a request envelope (`request.rs`): decode the DOM
struct (version tag first, propagating its failure), then reject a method
string different from the descriptor's constant with `unknown_variant`. -/
def RequestMessage.deserialize (R : Request) (j : Json) :
    Except DeError (RequestMessage R) :=
  match j with
  | Json.obj fields =>
    match getField fields "jsonrpc" with
    | none => Except.error (DeError.missingField "jsonrpc")
    | some jv =>
      match Version.deserialize jv with
      | Except.error e => Except.error e
      | Except.ok _ =>
        match getField fields "id" with
        | none => Except.error (DeError.missingField "id")
        | some iv =>
          match NumberOrString.deserialize iv with
          | Except.error e => Except.error e
          | Except.ok id =>
            match getField fields "method" with
            | none => Except.error (DeError.missingField "method")
            | some mv =>
              match decodeString mv with
              | Except.error e => Except.error e
              | Except.ok method =>
                match decodeOptionField R.decodeParams fields "params" with
                | Except.error e => Except.error e
                | Except.ok params =>
                  if method = R.METHOD then
                    Except.ok (RequestMessage.mk id params)
                  else
                    Except.error (DeError.unknownVariant method [R.METHOD])
  | _ => Except.error (DeError.invalidType "map")

/-- The notification envelope (`notification.rs`): optional params only,
generic over the method descriptor. -/
structure NotificationMessage (N : NotificationDescriptor) where
  params : Option N.Params

/-- Serialization of a notification envelope (`notification.rs`): fields in
order `jsonrpc`, `method`, then `params` only when present. -/
def NotificationMessage.serialize {N : NotificationDescriptor}
    (m : NotificationMessage N) : Json :=
  Json.obj
    ([("jsonrpc", Version.serialize),
      ("method", Json.str N.METHOD)] ++
      (match m.params with
       | some p => [("params", N.encodeParams p)]
       | none => []))

/-- Deserialization of a notification envelope (`notification.rs`). -/
def NotificationMessage.deserialize (N : NotificationDescriptor) (j : Json) :
    Except DeError (NotificationMessage N) :=
  match j with
  | Json.obj fields =>
    match getField fields "jsonrpc" with
    | none => Except.error (DeError.missingField "jsonrpc")
    | some jv =>
      match Version.deserialize jv with
      | Except.error e => Except.error e
      | Except.ok _ =>
        match getField fields "method" with
        | none => Except.error (DeError.missingField "method")
        | some mv =>
          match decodeString mv with
          | Except.error e => Except.error e
          | Except.ok method =>
            match decodeOptionField N.decodeParams fields "params" with
            | Except.error e => Except.error e
            | Except.ok params =>
              if method = N.METHOD then
                Except.ok (NotificationMessage.mk params)
              else
                Except.error (DeError.unknownVariant method [N.METHOD])
  | _ => Except.error (DeError.invalidType "map")

/-- The response envelope (`response.rs`): an identifier plus a
result-or-error payload, generic over the method descriptor. -/
structure ResponseMessage (R : Request) where
  id : ResponseId
  kind : Except Error R.Result

/-- Serialization of a response envelope (`response.rs`): fields in order
`jsonrpc`, `id`, then exactly one of `result` or `error`. -/
def ResponseMessage.serialize {R : Request} (m : ResponseMessage R) : Json :=
  Json.obj
    ([("jsonrpc", Version.serialize),
      ("id", m.id.serialize)] ++
      (match m.kind with
       | Except.ok v => [("result", R.encodeResult v)]
       | Except.error e => [("error", e.serialize)]))

/-- Deserialization of a response envelope (`response.rs`): version tag first,
then the identifier, then the flattened result-or-error union, which requires
exactly one of the `result`/`error` keys to be present. -/
def ResponseMessage.deserialize (R : Request) (j : Json) :
    Except DeError (ResponseMessage R) :=
  match j with
  | Json.obj fields =>
    match getField fields "jsonrpc" with
    | none => Except.error (DeError.missingField "jsonrpc")
    | some jv =>
      match Version.deserialize jv with
      | Except.error e => Except.error e
      | Except.ok _ =>
        match getField fields "id" with
        | none => Except.error (DeError.missingField "id")
        | some iv =>
          match ResponseId.deserialize iv with
          | Except.error e => Except.error e
          | Except.ok id =>
            match getField fields "result", getField fields "error" with
            | some rv, none =>
              match R.decodeResult rv with
              | Except.error e => Except.error e
              | Except.ok v => Except.ok (ResponseMessage.mk id (Except.ok v))
            | none, some ev =>
              match Error.deserialize ev with
              | Except.error e => Except.error e
              | Except.ok err => Except.ok (ResponseMessage.mk id (Except.error err))
            | some _, some _ => Except.error DeError.bothResultAndError
            | none, none => Except.error DeError.neitherResultNorError
  | _ => Except.error (DeError.invalidType "map")

/-- The JSON value of a request envelope's params, as the source's test-only
`PartialEq` computes it (`serde_json::to_value(&self.params)`): absent params
serialize to `null`. -/
def RequestMessage.paramsValue {R : Request} (m : RequestMessage R) : Json :=
  match m.params with
  | some p => R.encodeParams p
  | none => Json.null

/-- The JSON value of a notification envelope's params. -/
def NotificationMessage.paramsValue {N : NotificationDescriptor}
    (m : NotificationMessage N) : Json :=
  match m.params with
  | some p => N.encodeParams p
  | none => Json.null

/-- The JSON value of a response envelope's kind, as the source's test-only
`PartialEq` computes it (`serde_json::to_value(&self.kind)`, serde's
externally tagged encoding of `Result`). -/
def ResponseMessage.kindValue {R : Request} (m : ResponseMessage R) : Json :=
  match m.kind with
  | Except.ok v => Json.obj [("Ok", R.encodeResult v)]
  | Except.error e => Json.obj [("Err", e.serialize)]

namespace Pending

/-- Modelled from the spec: the identifier type `tower_lsp_json_rpc::Id` used
by `pending.rs` (its declaration is not among the provided sources; per the
spec it is the response identifier sum type: number, string, or null). -/
abbrev Id := ResponseId

/-- Modelled from the spec: the concrete response envelope handled by the
pending-request table (`tower_lsp_json_rpc::ResponseMessage` as used by
`pending.rs`; its declaration is not among the provided sources).  Per the
spec it carries an identifier and a result-or-error payload; correlation uses
only the identifier and the payload rides along opaquely. -/
structure ResponseMessage where
  id : Id
  payload : Except Error Json

/-- Modelled from the spec: the `ResponseMessage::from_ok` constructor used by
the source's tests, building a success response. -/
def ResponseMessage.from_ok (id : Id) (v : Json) : ResponseMessage :=
  ResponseMessage.mk id (Except.ok v)

/-- First entry bound to `id` in the pending table (the `DashMap` lookup). -/
def lookupEntry (t : List (Id × List Nat)) (id : Id) : Option (List Nat) :=
  match t with
  | [] => none
  | (k, v) :: rest => if k = id then some v else lookupEntry rest id

/-- Replace the value of the first entry bound to `id` (in-place mutation of
an occupied `DashMap` entry). -/
def setEntry (t : List (Id × List Nat)) (id : Id) (v : List Nat) :
    List (Id × List Nat) :=
  match t with
  | [] => []
  | (k, w) :: rest =>
    if k = id then (k, v) :: rest else (k, w) :: setEntry rest id v

/-- Remove the first entry bound to `id` (`Entry::remove`). -/
def removeEntry (t : List (Id × List Nat)) (id : Id) : List (Id × List Nat) :=
  match t with
  | [] => []
  | (k, w) :: rest =>
    if k = id then rest else (k, w) :: removeEntry rest id

/-- State of the correlation engine: the pending table of
`PendingClientRequests` (identifier to ordered list of oneshot sender
handles), together with the explicit oneshot-channel world the handles live
in: which handles have been sent a response, which receivers have been
dropped, and a fresh-handle counter. -/
structure PendingState where
  table : List (Id × List Nat)
  fulfilled : List (Nat × ResponseMessage)
  abandoned : List Nat
  nextHandle : Nat

/-- `PendingClientRequests::new`: the empty table in a fresh channel world. -/
def PendingState.new : PendingState := PendingState.mk [] [] [] 0

/-- `PendingClientRequests::await_response`: create a fresh oneshot channel
and register its sender under `id` — as sole member of a new entry when the
identifier is vacant, appended to the ordered list when occupied.  Returns
the receiver handle whose future resolves when the sender is fulfilled. -/
def await_response (s : PendingState) (id : Id) : Nat × PendingState :=
  let tx := s.nextHandle
  let table :=
    match lookupEntry s.table id with
    | none => s.table ++ [(id, [tx])]
    | some txs => setEntry s.table id (txs ++ [tx])
  (tx, { s with table := table, nextHandle := tx + 1 })

/-- `PendingClientRequests::register_response`: a null identifier or an
identifier with no entry is logged and discarded; otherwise the oldest handle
is removed (deleting the entry when it was the last), and the response is
sent on it.  `none` models a panic: `Vec::remove(0)` on an empty list, or
`.send(r).expect("receiver already dropped")` on an abandoned handle. -/
def register_response (s : PendingState) (r : ResponseMessage) :
    Option PendingState :=
  match r.id with
  | ResponseId.Null => some s
  | rid =>
    match lookupEntry s.table rid with
    | none => some s
    | some txs =>
      match txs with
      | [] => none
      | tx :: rest =>
        let table :=
          if rest.isEmpty then removeEntry s.table rid else setEntry s.table rid rest
        if s.abandoned.contains tx then none
        else some { s with table := table, fulfilled := s.fulfilled ++ [(tx, r)] }

/-- Dropping the receiver half of a pending wait (the caller abandons its
`await_response` future): the handle's later fulfilment will panic. -/
def drop_waiter (s : PendingState) (tx : Nat) : PendingState :=
  { s with abandoned := s.abandoned ++ [tx] }

/-- The value an `await_response` future for handle `tx` resolves to: the
response sent on its oneshot channel, if any. -/
def resolved (s : PendingState) (tx : Nat) : Option ResponseMessage :=
  s.fulfilled.lookup tx

/-- All handles stored in the table, in entry order. -/
def allHandles : List (Id × List Nat) → List Nat
  | [] => []
  | e :: rest => e.2 ++ allHandles rest

/-- The table invariant: no entry holds an empty handle list, and keys are
unique (a `DashMap` cannot hold duplicate keys). -/
@[reducible] def tableWF (t : List (Id × List Nat)) : Prop :=
  (∀ e ∈ t, e.2 ≠ []) ∧ (t.map Prod.fst).Nodup

end Pending

/-- Modelled from the spec: the shared server lifecycle state enum read by
the loopback socket (`State` is declared outside the provided sources; the
spec lists the monotone progression Initializing → Initialized → ShuttingDown
→ Exited). -/
inductive State where
  | Initializing
  | Initialized
  | ShuttingDown
  | Exited
deriving DecidableEq

/-- Poll outcome of a stream (`std::task::Poll`). -/
inductive Poll (α : Type) where
  | ready (v : α)
  | pending
deriving DecidableEq

/-- `ClientRequestStream` (`socket.rs`): the receiver half of the loopback
request channel plus the shared lifecycle state.  The receiver is modelled by
its queued messages, whether its sender half is closed, and whether the
stream has already terminated (`FusedStream::is_terminated`). -/
structure ClientRequestStream (α : Type) where
  queue : List α
  senderClosed : Bool
  rxTerminated : Bool
  state : State

/-- `ClientRequestStream::poll_next` (`socket.rs`): once the lifecycle state
is `Exited` or the receiver is terminated, report end-of-stream; otherwise
poll the underlying channel (yield the next queued message, terminate when
the channel is closed and drained, or stay pending). -/
def poll_next {α : Type} (s : ClientRequestStream α) :
    Poll (Option α) × ClientRequestStream α :=
  if s.state = State.Exited ∨ s.rxTerminated then
    (Poll.ready none, s)
  else
    match s.queue with
    | x :: rest => (Poll.ready (some x), { s with queue := rest })
    | [] =>
      if s.senderClosed then (Poll.ready none, { s with rxTerminated := true })
      else (Poll.pending, s)

/-- A concrete request method descriptor used to instantiate the generic
envelope theorems: integer params and result, encoded as JSON numbers. -/
@[reducible] def sampleRequest : Request :=
  { METHOD := "test/method", Params := Int, Result := Int,
    encodeParams := Json.num,
    decodeParams := fun j => match j with
      | Json.num n => Except.ok n
      | _ => Except.error (DeError.invalidType "integer"),
    encodeResult := Json.num,
    decodeResult := fun j => match j with
      | Json.num n => Except.ok n
      | _ => Except.error (DeError.invalidType "integer") }

/-- A concrete notification method descriptor used to instantiate the generic
envelope theorems. -/
@[reducible] def sampleNotification : NotificationDescriptor :=
  { METHOD := "test/notify", Params := Int,
    encodeParams := Json.num,
    decodeParams := fun j => match j with
      | Json.num n => Except.ok n
      | _ => Except.error (DeError.invalidType "integer") }

/-- A concrete request envelope with params present. -/
def sampleReqMsg : RequestMessage sampleRequest :=
  RequestMessage.mk (NumberOrString.number 0) (some 5)

/-- A concrete request envelope with params absent. -/
def sampleReqMsgNoParams : RequestMessage sampleRequest :=
  RequestMessage.mk (NumberOrString.number 0) none

/-- A concrete notification envelope with params present. -/
def sampleNotifMsg : NotificationMessage sampleNotification :=
  NotificationMessage.mk (some 3)

/-- A concrete notification envelope with params absent. -/
def sampleNotifMsgNoParams : NotificationMessage sampleNotification :=
  NotificationMessage.mk none

/-- A concrete success response envelope. -/
def sampleRespMsg : ResponseMessage sampleRequest :=
  ResponseMessage.mk (ResponseId.Number 0) (Except.ok 7)

/-- A concrete correlation-layer response with identifier 1 and payload "foo". -/
def fooResponse : Pending.ResponseMessage :=
  Pending.ResponseMessage.from_ok (ResponseId.Number 1) (Json.str "foo")

/-- A concrete correlation-layer response with identifier 1 and payload "bar". -/
def barResponse : Pending.ResponseMessage :=
  Pending.ResponseMessage.from_ok (ResponseId.Number 1) (Json.str "bar")

/-- A concrete correlation-layer response with the null identifier. -/
def nullResponse : Pending.ResponseMessage :=
  Pending.ResponseMessage.from_ok ResponseId.Null Json.null

/-- The engine state after one `await_response` for identifier 1. -/
def sampleState1 : Pending.PendingState :=
  (Pending.await_response Pending.PendingState.new (ResponseId.Number 1)).2

/-- The engine state after that waiter has been fulfilled with `fooResponse`. -/
def sampleState2 : Pending.PendingState :=
  Pending.PendingState.mk [] [(0, fooResponse)] [] 1

/-- The engine state after awaiting once on the null identifier and once on
identifier 1. -/
def sampleStateNull : Pending.PendingState :=
  (Pending.await_response
    (Pending.await_response Pending.PendingState.new ResponseId.Null).2
    (ResponseId.Number 1)).2

/-- The engine state after the identifier-1 waiter of `sampleStateNull` has
been fulfilled with `fooResponse`. -/
def sampleStateNull2 : Pending.PendingState :=
  Pending.PendingState.mk [(ResponseId.Null, [0])] [(1, fooResponse)] [] 2

/-- A concrete request stream whose lifecycle state is `Exited` while its
queue still holds an undelivered message. -/
def sampleStream : ClientRequestStream Nat :=
  ClientRequestStream.mk [7] false false State.Exited

/-- A JSON value whose `isNull` test succeeds is `null` itself. -/
theorem Json.eq_null_of_isNull {v : Json} (h : v.isNull = true) : v = Json.null := by
  cases v <;> simp [Json.isNull] at h ⊢

/-- Request identifiers survive a serialization round trip exactly. -/
theorem deserialize_serialize_numberOrString (i : NumberOrString) :
    NumberOrString.deserialize i.serialize = Except.ok i := by
  cases i <;> rfl

/-- Response identifiers survive a serialization round trip exactly. -/
theorem deserialize_serialize_responseId (i : ResponseId) :
    ResponseId.deserialize i.serialize = Except.ok i := by
  cases i <;> rfl

/-- Error payloads survive a serialization round trip exactly. -/
theorem deserialize_serialize_error (e : Error) :
    Error.deserialize e.serialize = Except.ok e := rfl

namespace Pending

/-- A key is absent from the table exactly when its lookup fails. -/
theorem lookupEntry_eq_none_iff {t : List (Id × List Nat)} {i : Id} :
    lookupEntry t i = none ↔ i ∉ t.map Prod.fst := by
  induction t with
  | nil => simp [lookupEntry]
  | cons e rest ih =>
    obtain ⟨k, w⟩ := e
    by_cases h : k = i
    · subst h
      simp [lookupEntry]
    · simp [lookupEntry, h, ih, Ne.symm h]

/-- Entries of the table after `setEntry` come from the old table or are the
replaced binding. -/
theorem mem_setEntry {t : List (Id × List Nat)} {i : Id} {v : List Nat}
    {e : Id × List Nat} (h : e ∈ setEntry t i v) : e ∈ t ∨ e = (i, v) := by
  induction t with
  | nil => simp [setEntry] at h
  | cons f rest ih =>
    obtain ⟨k, w⟩ := f
    by_cases hk : k = i
    · subst hk
      simp [setEntry] at h
      rcases h with h | h
      · right; simp [h]
      · left; simp [h]
    · simp [setEntry, hk] at h
      rcases h with h | h
      · left; simp [h]
      · rcases ih h with h' | h'
        · left; simp [h']
        · right; exact h'

/-- Replacing an entry's value leaves the key sequence unchanged. -/
theorem map_fst_setEntry (t : List (Id × List Nat)) (i : Id) (v : List Nat) :
    (setEntry t i v).map Prod.fst = t.map Prod.fst := by
  induction t with
  | nil => simp [setEntry]
  | cons f rest ih =>
    obtain ⟨k, w⟩ := f
    by_cases hk : k = i
    · simp [setEntry, hk]
    · simp [setEntry, hk, ih]

/-- Entries surviving `removeEntry` come from the old table. -/
theorem mem_removeEntry {t : List (Id × List Nat)} {i : Id}
    {e : Id × List Nat} (h : e ∈ removeEntry t i) : e ∈ t := by
  induction t with
  | nil => simp [removeEntry] at h
  | cons f rest ih =>
    obtain ⟨k, w⟩ := f
    by_cases hk : k = i
    · simp [removeEntry, hk] at h
      simp [h]
    · simp [removeEntry, hk] at h
      rcases h with h | h
      · simp [h]
      · simp [ih h]

/-- Removing an entry yields a sub-sequence of the old key sequence. -/
theorem map_fst_removeEntry_sublist (t : List (Id × List Nat)) (i : Id) :
    ((removeEntry t i).map Prod.fst).Sublist (t.map Prod.fst) := by
  induction t with
  | nil => simp [removeEntry]
  | cons f rest ih =>
    obtain ⟨k, w⟩ := f
    by_cases hk : k = i
    · simp [removeEntry, hk]
    · simp [removeEntry, hk]
      exact ih

/-- With unique keys, a removed key no longer resolves. -/
theorem lookupEntry_removeEntry_self {t : List (Id × List Nat)} {i : Id}
    (h : (t.map Prod.fst).Nodup) : lookupEntry (removeEntry t i) i = none := by
  induction t with
  | nil => simp [removeEntry, lookupEntry]
  | cons f rest ih =>
    obtain ⟨k, w⟩ := f
    rw [List.map_cons, List.nodup_cons] at h
    by_cases hk : k = i
    · subst hk
      simp [removeEntry]
      exact lookupEntry_eq_none_iff.mpr h.1
    · simp [removeEntry, hk, lookupEntry]
      exact ih h.2

/-- Replacing an occupied entry's value makes lookups return the new value. -/
theorem lookupEntry_setEntry_self {t : List (Id × List Nat)} {i : Id} {w v : List Nat}
    (h : lookupEntry t i = some w) : lookupEntry (setEntry t i v) i = some v := by
  induction t with
  | nil => simp [lookupEntry] at h
  | cons f rest ih =>
    obtain ⟨k, u⟩ := f
    by_cases hk : k = i
    · simp [setEntry, hk, lookupEntry]
    · simp [lookupEntry, hk] at h
      simp [setEntry, hk, lookupEntry, ih h]

/-- Replacing one entry leaves lookups of other keys unchanged. -/
theorem lookupEntry_setEntry_ne {t : List (Id × List Nat)} {i j : Id} {v : List Nat}
    (h : j ≠ i) : lookupEntry (setEntry t i v) j = lookupEntry t j := by
  induction t with
  | nil => simp [setEntry]
  | cons f rest ih =>
    obtain ⟨k, u⟩ := f
    by_cases hk : k = i
    · subst hk
      simp [setEntry, lookupEntry, Ne.symm h]
    · simp [setEntry, hk, lookupEntry, ih]

/-- Removing one entry leaves lookups of other keys unchanged. -/
theorem lookupEntry_removeEntry_ne {t : List (Id × List Nat)} {i j : Id}
    (h : j ≠ i) : lookupEntry (removeEntry t i) j = lookupEntry t j := by
  induction t with
  | nil => simp [removeEntry]
  | cons f rest ih =>
    obtain ⟨k, u⟩ := f
    by_cases hk : k = i
    · subst hk
      simp [removeEntry, lookupEntry, Ne.symm h]
    · simp [removeEntry, hk, lookupEntry, ih]

/-- Appending a binding for an absent key makes its lookup resolve to it. -/
theorem lookupEntry_append_right {t : List (Id × List Nat)} {i : Id}
    (h : lookupEntry t i = none) (v : List Nat) :
    lookupEntry (t ++ [(i, v)]) i = some v := by
  induction t with
  | nil => simp [lookupEntry]
  | cons f rest ih =>
    obtain ⟨k, u⟩ := f
    by_cases hk : k = i
    · simp [lookupEntry, hk] at h
    · simp [lookupEntry, hk] at h ⊢
      exact ih h

/-- Handles found through a lookup are among the table's handles. -/
theorem mem_allHandles_of_lookup {t : List (Id × List Nat)} {i : Id} {v : List Nat}
    (h : lookupEntry t i = some v) {x : Nat} (hx : x ∈ v) : x ∈ allHandles t := by
  induction t with
  | nil => simp [lookupEntry] at h
  | cons f rest ih =>
    obtain ⟨k, u⟩ := f
    by_cases hk : k = i
    · simp [lookupEntry, hk] at h
      subst h
      simp [allHandles, hx]
    · simp [lookupEntry, hk] at h
      simp [allHandles, ih h]

/-- When all handles in the table are distinct, the handle lists of two
different keys are disjoint. -/
theorem lookupEntry_disjoint {t : List (Id × List Nat)}
    (hnd : (allHandles t).Nodup) {i1 i2 : Id} {v1 v2 : List Nat}
    (h1 : lookupEntry t i1 = some v1) (h2 : lookupEntry t i2 = some v2)
    (hne : i1 ≠ i2) {x : Nat} (hx : x ∈ v1) : x ∉ v2 := by
  induction t with
  | nil => simp [lookupEntry] at h1
  | cons f rest ih =>
    obtain ⟨k, u⟩ := f
    rw [allHandles] at hnd
    by_cases hk1 : k = i1
    · subst hk1
      simp [lookupEntry] at h1
      subst h1
      simp only [lookupEntry, if_neg hne] at h2
      intro hx2
      exact (List.disjoint_of_nodup_append hnd) hx (mem_allHandles_of_lookup h2 hx2)
    · by_cases hk2 : k = i2
      · subst hk2
        simp [lookupEntry] at h2
        subst h2
        simp only [lookupEntry, if_neg hk1] at h1
        intro hx2
        exact (List.disjoint_of_nodup_append hnd) hx2 (mem_allHandles_of_lookup h1 hx)
      · simp only [lookupEntry, if_neg hk1] at h1
        simp only [lookupEntry, if_neg hk2] at h2
        exact ih hnd.of_append_right h1 h2

/-- Appending a channel binding for a different handle does not change what a
handle's lookup resolves to. -/
theorem lookup_append_single_ne {β : Type} (l : List (Nat × β)) {k a : Nat} (b : β)
    (h : k ≠ a) : List.lookup k (l ++ [(a, b)]) = List.lookup k l := by
  induction l with
  | nil =>
    have hba : (k == a) = false := by simp [h]
    simp [List.lookup, hba]
  | cons e rest ih =>
    obtain ⟨k', b'⟩ := e
    cases hkk : k == k' with
    | true => simp [List.lookup, hkk]
    | false => simp [List.lookup, hkk, ih]

/-- Case analysis of a non-panicking `register_response`: either the response
was discarded (null or unknown identifier) and the state is unchanged, or the
oldest live handle of the identifier's entry was removed and fulfilled. -/
theorem register_response_cases (s : PendingState) (r : ResponseMessage)
    (s' : PendingState) (hreg : register_response s r = some s') :
    (s' = s ∧ (r.id = ResponseId.Null ∨ lookupEntry s.table r.id = none))
    ∨ ∃ tx rest, r.id ≠ ResponseId.Null ∧ lookupEntry s.table r.id = some (tx :: rest) ∧
        tx ∉ s.abandoned ∧
        s'.table = (if rest = [] then removeEntry s.table r.id
                    else setEntry s.table r.id rest) ∧
        s'.fulfilled = s.fulfilled ++ [(tx, r)] ∧
        s'.abandoned = s.abandoned ∧ s'.nextHandle = s.nextHandle := by
  cases hr : r.id with
  | Null =>
    simp [register_response, hr] at hreg
    exact Or.inl ⟨hreg.symm, Or.inl rfl⟩
  | Number n =>
    cases hl : lookupEntry s.table (ResponseId.Number n) with
    | none =>
      simp [register_response, hr, hl] at hreg
      exact Or.inl ⟨hreg.symm, Or.inr rfl⟩
    | some txs =>
      cases txs with
      | nil => simp [register_response, hr, hl] at hreg
      | cons tx rest =>
        simp [register_response, hr, hl] at hreg
        obtain ⟨hnab, hs'⟩ := hreg
        subst hs'
        exact Or.inr ⟨tx, rest, by simp, rfl, hnab, rfl, rfl, rfl, rfl⟩
  | String a =>
    cases hl : lookupEntry s.table (ResponseId.String a) with
    | none =>
      simp [register_response, hr, hl] at hreg
      exact Or.inl ⟨hreg.symm, Or.inr rfl⟩
    | some txs =>
      cases txs with
      | nil => simp [register_response, hr, hl] at hreg
      | cons tx rest =>
        simp [register_response, hr, hl] at hreg
        obtain ⟨hnab, hs'⟩ := hreg
        subst hs'
        exact Or.inr ⟨tx, rest, by simp, rfl, hnab, rfl, rfl, rfl, rfl⟩

end Pending

/-- Claim C1: for a fixed non-null identifier, responses are correlated to
waiters FIFO: with two waiters W1 then W2 registered for the same identifier
and two responses A then B registered for it, both registrations succeed, W1
resolves to A and W2 resolves to B, regardless of the payloads. -/
theorem correlation_fifo (i : Pending.Id) (hid : i ≠ ResponseId.Null)
    (A B : Pending.ResponseMessage) (hA : A.id = i) (hB : B.id = i) :
    ((Pending.register_response
        (Pending.await_response (Pending.await_response Pending.PendingState.new i).2 i).2 A).bind
      (fun s3 => Pending.register_response s3 B)).map
      (fun s4 =>
        (Pending.resolved s4 (Pending.await_response Pending.PendingState.new i).1,
         Pending.resolved s4
           (Pending.await_response (Pending.await_response Pending.PendingState.new i).2 i).1))
    = some (some A, some B) := by
  obtain ⟨idA, pA⟩ := A
  obtain ⟨idB, pB⟩ := B
  dsimp only at hA hB
  subst hA
  subst hB
  cases idB with
  | Null => exact absurd rfl hid
  | Number n =>
    simp [Pending.register_response, Pending.await_response, Pending.PendingState.new,
      Pending.lookupEntry, Pending.setEntry, Pending.removeEntry, Pending.resolved,
      List.lookup, Option.bind]
  | String a =>
    simp [Pending.register_response, Pending.await_response, Pending.PendingState.new,
      Pending.lookupEntry, Pending.setEntry, Pending.removeEntry, Pending.resolved,
      List.lookup, Option.bind]

/-- Witness for C1 at identifier 1 with payloads "foo" and "bar". -/
theorem correlation_fifo_witness :
    ((Pending.register_response
        (Pending.await_response
          (Pending.await_response Pending.PendingState.new (ResponseId.Number 1)).2
          (ResponseId.Number 1)).2 fooResponse).bind
      (fun s3 => Pending.register_response s3 barResponse)).map
      (fun s4 =>
        (Pending.resolved s4
           (Pending.await_response Pending.PendingState.new (ResponseId.Number 1)).1,
         Pending.resolved s4
           (Pending.await_response
             (Pending.await_response Pending.PendingState.new (ResponseId.Number 1)).2
             (ResponseId.Number 1)).1))
    = some (some fooResponse, some barResponse) :=
  correlation_fifo (ResponseId.Number 1) (by decide) fooResponse barResponse rfl rfl

/-- Claim C2: for every envelope kind and every method descriptor whose codecs
round-trip, deserializing the serialization of an envelope succeeds and yields
an envelope with the same identifier (when present) and the same decoded
params or result-or-error payload, compared by serialized JSON value as in the
source's `PartialEq` impls. -/
theorem envelope_roundtrip :
    (∀ R : Request, (∀ p, R.decodeParams (R.encodeParams p) = Except.ok p) →
        ∀ m : RequestMessage R,
          (RequestMessage.deserialize R m.serialize).map (fun m' => (m'.id, m'.paramsValue))
            = Except.ok (m.id, m.paramsValue))
    ∧ (∀ N : NotificationDescriptor, (∀ p, N.decodeParams (N.encodeParams p) = Except.ok p) →
        ∀ m : NotificationMessage N,
          (NotificationMessage.deserialize N m.serialize).map (fun m' => m'.paramsValue)
            = Except.ok m.paramsValue)
    ∧ (∀ R : Request, (∀ v, R.decodeResult (R.encodeResult v) = Except.ok v) →
        ∀ m : ResponseMessage R,
          (ResponseMessage.deserialize R m.serialize).map (fun m' => (m'.id, m'.kindValue))
            = Except.ok (m.id, m.kindValue)) := by
  refine ⟨?_, ?_, ?_⟩
  · intro R hp m
    obtain ⟨i, params⟩ := m
    cases params with
    | none =>
      simp [RequestMessage.serialize, RequestMessage.deserialize, getField,
        Version.serialize, Version.deserialize, decodeString,
        decodeOptionField, deserialize_serialize_numberOrString, Except.map]
    | some p =>
      by_cases hb : (R.encodeParams p).isNull = true
      · have hnull := Json.eq_null_of_isNull hb
        simp [RequestMessage.serialize, RequestMessage.deserialize, getField,
          Version.serialize, Version.deserialize, decodeString,
          decodeOptionField, deserialize_serialize_numberOrString, hb, Except.map,
          RequestMessage.paramsValue, hnull, Json.isNull]
      · simp [RequestMessage.serialize, RequestMessage.deserialize, getField,
          Version.serialize, Version.deserialize, decodeString,
          decodeOptionField, deserialize_serialize_numberOrString, hb, hp p, Except.map]
  · intro N hp m
    obtain ⟨params⟩ := m
    cases params with
    | none =>
      simp [NotificationMessage.serialize, NotificationMessage.deserialize, getField,
        Version.serialize, Version.deserialize, decodeString, decodeOptionField, Except.map]
    | some p =>
      by_cases hb : (N.encodeParams p).isNull = true
      · have hnull := Json.eq_null_of_isNull hb
        simp [NotificationMessage.serialize, NotificationMessage.deserialize, getField,
          Version.serialize, Version.deserialize, decodeString, decodeOptionField, hb,
          Except.map, NotificationMessage.paramsValue, hnull, Json.isNull]
      · simp [NotificationMessage.serialize, NotificationMessage.deserialize, getField,
          Version.serialize, Version.deserialize, decodeString, decodeOptionField, hb,
          hp p, Except.map]
  · intro R hr m
    obtain ⟨i, kind⟩ := m
    cases kind with
    | ok v =>
      simp [ResponseMessage.serialize, ResponseMessage.deserialize, getField,
        Version.serialize, Version.deserialize, deserialize_serialize_responseId, hr v,
        Except.map]
    | error e =>
      simp [ResponseMessage.serialize, ResponseMessage.deserialize, getField,
        Version.serialize, Version.deserialize, deserialize_serialize_responseId,
        deserialize_serialize_error, Except.map]

/-- Witness for C2 at the sample descriptors and concrete envelopes. -/
theorem envelope_roundtrip_witness :
    (RequestMessage.deserialize sampleRequest sampleReqMsg.serialize).map
        (fun m' => (m'.id, m'.paramsValue))
      = Except.ok (sampleReqMsg.id, sampleReqMsg.paramsValue)
    ∧ (NotificationMessage.deserialize sampleNotification sampleNotifMsg.serialize).map
        (fun m' => m'.paramsValue)
      = Except.ok sampleNotifMsg.paramsValue
    ∧ (ResponseMessage.deserialize sampleRequest sampleRespMsg.serialize).map
        (fun m' => (m'.id, m'.kindValue))
      = Except.ok (sampleRespMsg.id, sampleRespMsg.kindValue) :=
  ⟨envelope_roundtrip.1 sampleRequest (fun _ => rfl) sampleReqMsg,
   envelope_roundtrip.2.1 sampleNotification (fun _ => rfl) sampleNotifMsg,
   envelope_roundtrip.2.2 sampleRequest (fun _ => rfl) sampleRespMsg⟩

/-- Claim C3: deserializing any envelope whose `jsonrpc` field is a string
other than "2.0" fails, for all three envelope kinds, with the
`unknown_variant` error naming the received string and the single accepted
literal — it never succeeds. -/
theorem version_guard (v : String) (hv : v ≠ JSON_RPC_VERSION_STR)
    (fields : List (String × Json)) (hf : getField fields "jsonrpc" = some (Json.str v)) :
    (∀ R : Request, RequestMessage.deserialize R (Json.obj fields) =
        Except.error (DeError.unknownVariant v [JSON_RPC_VERSION_STR]))
    ∧ (∀ N : NotificationDescriptor, NotificationMessage.deserialize N (Json.obj fields) =
        Except.error (DeError.unknownVariant v [JSON_RPC_VERSION_STR]))
    ∧ (∀ R : Request, ResponseMessage.deserialize R (Json.obj fields) =
        Except.error (DeError.unknownVariant v [JSON_RPC_VERSION_STR])) := by
  refine ⟨fun R => ?_, fun N => ?_, fun R => ?_⟩ <;>
    simp [RequestMessage.deserialize, NotificationMessage.deserialize,
      ResponseMessage.deserialize, hf, Version.deserialize, hv]

/-- Witness for C3 at the version string "1.0". -/
theorem version_guard_witness :
    RequestMessage.deserialize sampleRequest (Json.obj [("jsonrpc", Json.str "1.0")])
        = Except.error (DeError.unknownVariant "1.0" [JSON_RPC_VERSION_STR])
    ∧ NotificationMessage.deserialize sampleNotification
        (Json.obj [("jsonrpc", Json.str "1.0")])
        = Except.error (DeError.unknownVariant "1.0" [JSON_RPC_VERSION_STR])
    ∧ ResponseMessage.deserialize sampleRequest (Json.obj [("jsonrpc", Json.str "1.0")])
        = Except.error (DeError.unknownVariant "1.0" [JSON_RPC_VERSION_STR]) :=
  ⟨(version_guard "1.0" (by decide) [("jsonrpc", Json.str "1.0")] rfl).1 sampleRequest,
   (version_guard "1.0" (by decide) [("jsonrpc", Json.str "1.0")] rfl).2.1 sampleNotification,
   (version_guard "1.0" (by decide) [("jsonrpc", Json.str "1.0")] rfl).2.2 sampleRequest⟩

/-- Claim C4: deserializing a response object that contains both the `result`
and `error` keys, or neither, fails; and serializing a response emits exactly
one of the `result`/`error` keys. -/
theorem result_error_exclusive :
    (∀ (R : Request) (fields : List (String × Json)),
        hasField fields "result" = true → hasField fields "error" = true →
        (ResponseMessage.deserialize R (Json.obj fields)).isOk = false)
    ∧ (∀ (R : Request) (fields : List (String × Json)),
        hasField fields "result" = false → hasField fields "error" = false →
        (ResponseMessage.deserialize R (Json.obj fields)).isOk = false)
    ∧ (∀ (R : Request) (m : ResponseMessage R),
        countField m.serialize.objFields "result"
          + countField m.serialize.objFields "error" = 1) := by
  refine ⟨?_, ?_, ?_⟩
  · intro R fields h1 h2
    rw [hasField, Option.isSome_iff_exists] at h1 h2
    obtain ⟨rv, hrv⟩ := h1
    obtain ⟨ev, hev⟩ := h2
    cases hjv : getField fields "jsonrpc" with
    | none => simp [ResponseMessage.deserialize, hjv, Except.isOk, Except.toBool]
    | some jv =>
      cases hver : Version.deserialize jv with
      | error e => simp [ResponseMessage.deserialize, hjv, hver, Except.isOk, Except.toBool]
      | ok u =>
        cases hiv : getField fields "id" with
        | none => simp [ResponseMessage.deserialize, hjv, hver, hiv, Except.isOk, Except.toBool]
        | some iv =>
          cases hid : ResponseId.deserialize iv with
          | error e =>
            simp [ResponseMessage.deserialize, hjv, hver, hiv, hid, Except.isOk, Except.toBool]
          | ok rid =>
            simp [ResponseMessage.deserialize, hjv, hver, hiv, hid, hrv, hev,
              Except.isOk, Except.toBool]
  · intro R fields h1 h2
    cases hrv : getField fields "result" with
    | some rv => simp [hasField, hrv] at h1
    | none =>
      cases hev : getField fields "error" with
      | some ev => simp [hasField, hev] at h2
      | none =>
        cases hjv : getField fields "jsonrpc" with
        | none => simp [ResponseMessage.deserialize, hjv, Except.isOk, Except.toBool]
        | some jv =>
          cases hver : Version.deserialize jv with
          | error e =>
            simp [ResponseMessage.deserialize, hjv, hver, Except.isOk, Except.toBool]
          | ok u =>
            cases hiv : getField fields "id" with
            | none =>
              simp [ResponseMessage.deserialize, hjv, hver, hiv, Except.isOk, Except.toBool]
            | some iv =>
              cases hid : ResponseId.deserialize iv with
              | error e =>
                simp [ResponseMessage.deserialize, hjv, hver, hiv, hid,
                  Except.isOk, Except.toBool]
              | ok rid =>
                simp [ResponseMessage.deserialize, hjv, hver, hiv, hid, hrv, hev,
                  Except.isOk, Except.toBool]
  · intro R m
    cases hk : m.kind <;>
      simp [ResponseMessage.serialize, hk, Json.objFields, countField]

/-- Witness for C4 at concrete response objects and the sample response. -/
theorem result_error_exclusive_witness :
    (ResponseMessage.deserialize sampleRequest (Json.obj
        [("jsonrpc", Json.str "2.0"), ("id", Json.num 0),
         ("result", Json.num 1), ("error", Json.num 2)])).isOk = false
    ∧ (ResponseMessage.deserialize sampleRequest (Json.obj
        [("jsonrpc", Json.str "2.0"), ("id", Json.num 0)])).isOk = false
    ∧ countField sampleRespMsg.serialize.objFields "result"
        + countField sampleRespMsg.serialize.objFields "error" = 1 :=
  ⟨result_error_exclusive.1 sampleRequest
      [("jsonrpc", Json.str "2.0"), ("id", Json.num 0),
       ("result", Json.num 1), ("error", Json.num 2)] rfl rfl,
   result_error_exclusive.2.1 sampleRequest
      [("jsonrpc", Json.str "2.0"), ("id", Json.num 0)] rfl rfl,
   result_error_exclusive.2.2 sampleRequest sampleRespMsg⟩

/-- Claim C5: serializing a request or notification envelope whose params are
absent emits no "params" key at all. -/
theorem optional_params_omitted :
    (∀ (R : Request) (m : RequestMessage R), m.params = none →
        hasField m.serialize.objFields "params" = false)
    ∧ (∀ (N : NotificationDescriptor) (m : NotificationMessage N), m.params = none →
        hasField m.serialize.objFields "params" = false) := by
  constructor
  · intro R m h
    simp [RequestMessage.serialize, h, Json.objFields, hasField, getField]
  · intro N m h
    simp [NotificationMessage.serialize, h, Json.objFields, hasField, getField]

/-- Witness for C5 at concrete params-less envelopes. -/
theorem optional_params_omitted_witness :
    hasField sampleReqMsgNoParams.serialize.objFields "params" = false
    ∧ hasField sampleNotifMsgNoParams.serialize.objFields "params" = false :=
  ⟨optional_params_omitted.1 sampleRequest sampleReqMsgNoParams rfl,
   optional_params_omitted.2 sampleNotification sampleNotifMsgNoParams rfl⟩

/-- Claim C6: registering a response whose identifier is the null sentinel, or
whose identifier has no entry in the table, does not panic and leaves the
whole state unchanged. -/
theorem register_unknown_or_null (s : Pending.PendingState)
    (r : Pending.ResponseMessage) :
    (r.id = ResponseId.Null → Pending.register_response s r = some s)
    ∧ (Pending.lookupEntry s.table r.id = none → Pending.register_response s r = some s) := by
  constructor
  · intro h
    simp [Pending.register_response, h]
  · intro h
    cases hr : r.id with
    | Null => simp [Pending.register_response, hr]
    | Number n =>
      rw [hr] at h
      simp [Pending.register_response, hr, h]
    | String a =>
      rw [hr] at h
      simp [Pending.register_response, hr, h]

/-- Witness for C6 at the empty table with a null and an unknown identifier. -/
theorem register_unknown_or_null_witness :
    Pending.register_response Pending.PendingState.new nullResponse
        = some Pending.PendingState.new
    ∧ Pending.register_response Pending.PendingState.new fooResponse
        = some Pending.PendingState.new :=
  ⟨(register_unknown_or_null Pending.PendingState.new nullResponse).1 rfl,
   (register_unknown_or_null Pending.PendingState.new fooResponse).2 rfl⟩

/-- Claim C7: the table never contains an entry with an empty handle list:
`await_response` and non-panicking `register_response` both preserve the
invariant, and the registration that consumes the last handle of an entry
removes the entry, so the identifier is no longer a live key. -/
theorem table_no_empty_entry :
    (∀ (s : Pending.PendingState) (i : Pending.Id),
        Pending.tableWF s.table → Pending.tableWF (Pending.await_response s i).2.table)
    ∧ (∀ (s : Pending.PendingState) (r : Pending.ResponseMessage) (s' : Pending.PendingState),
        Pending.tableWF s.table → Pending.register_response s r = some s' →
        Pending.tableWF s'.table)
    ∧ (∀ (s : Pending.PendingState) (r : Pending.ResponseMessage) (s' : Pending.PendingState)
        (tx : Nat),
        (s.table.map Prod.fst).Nodup → r.id ≠ ResponseId.Null →
        Pending.register_response s r = some s' →
        Pending.lookupEntry s.table r.id = some [tx] →
        Pending.lookupEntry s'.table r.id = none) := by
  refine ⟨?_, ?_, ?_⟩
  · intro s i hwf
    obtain ⟨hne, hnd⟩ := hwf
    cases hl : Pending.lookupEntry s.table i with
    | none =>
      simp only [Pending.await_response, hl]
      refine ⟨?_, ?_⟩
      · intro e he
        rcases List.mem_append.mp he with he | he
        · exact hne e he
        · simp at he
          subst he
          simp
      · rw [List.map_append, List.nodup_append]
        refine ⟨hnd, by simp, ?_⟩
        intro a ha hai
        simp at hai
        subst hai
        exact Pending.lookupEntry_eq_none_iff.mp hl ha
    | some txs =>
      simp only [Pending.await_response, hl]
      refine ⟨?_, ?_⟩
      · intro e he
        rcases Pending.mem_setEntry he with he | he
        · exact hne e he
        · subst he
          simp
      · rw [Pending.map_fst_setEntry]
        exact hnd
  · intro s r s' hwf hreg
    obtain ⟨hne, hnd⟩ := hwf
    rcases Pending.register_response_cases s r s' hreg with ⟨heq, _⟩ |
      ⟨tx, rest, hnn, hl, hnab, htab, _⟩
    · rw [heq]
      exact ⟨hne, hnd⟩
    · cases rest with
      | nil =>
        rw [htab]
        simp only [if_pos rfl]
        refine ⟨?_, ?_⟩
        · intro e he
          exact hne e (Pending.mem_removeEntry he)
        · exact List.Nodup.sublist (Pending.map_fst_removeEntry_sublist _ _) hnd
      | cons y ys =>
        rw [htab]
        rw [if_neg (by simp)]
        refine ⟨?_, ?_⟩
        · intro e he
          rcases Pending.mem_setEntry he with he | he
          · exact hne e he
          · subst he
            simp
        · rw [Pending.map_fst_setEntry]
          exact hnd
  · intro s r s' tx hnd hnn hreg hl
    rcases Pending.register_response_cases s r s' hreg with ⟨heq, hc | hc⟩ |
      ⟨tx0, rest, hnn0, hl0, hnab, htab, _⟩
    · exact absurd hc hnn
    · rw [hl] at hc
      cases hc
    · rw [hl] at hl0
      obtain ⟨htx0, hrest⟩ : tx = tx0 ∧ [] = rest := by
        have := Option.some.inj hl0
        exact ⟨List.head_eq_of_cons_eq this, List.tail_eq_of_cons_eq this⟩
      subst htx0
      subst hrest
      rw [htab]
      simp only [if_pos rfl]
      exact Pending.lookupEntry_removeEntry_self hnd

/-- Witness for C7: the invariant holds after a concrete await, after the
registration that fulfils it, and the consumed identifier is gone. -/
theorem table_no_empty_entry_witness :
    Pending.tableWF (Pending.await_response Pending.PendingState.new (ResponseId.Number 1)).2.table
    ∧ Pending.tableWF sampleState2.table
    ∧ Pending.lookupEntry sampleState2.table fooResponse.id = none :=
  ⟨table_no_empty_entry.1 Pending.PendingState.new (ResponseId.Number 1) (by decide),
   table_no_empty_entry.2.1 sampleState1 fooResponse sampleState2 (by decide) rfl,
   table_no_empty_entry.2.2 sampleState1 fooResponse sampleState2 0
     (by decide) (by decide) rfl rfl⟩

/-- Claim C8: registering a response whose matching entry's oldest handle has
been abandoned (its receiver dropped) is fatal: the modelled
`register_response` panics (returns `none`) instead of recovering. -/
theorem register_abandoned_fatal (s : Pending.PendingState) (r : Pending.ResponseMessage)
    (tx : Nat) (rest : List Nat)
    (hnn : r.id ≠ ResponseId.Null)
    (hentry : Pending.lookupEntry s.table r.id = some (tx :: rest))
    (hab : s.abandoned.contains tx = true) :
    Pending.register_response s r = none := by
  cases hr : r.id with
  | Null => exact absurd hr hnn
  | Number n =>
    rw [hr] at hentry
    simp [Pending.register_response, hr, hentry, hab]
    simpa using hab
  | String a =>
    rw [hr] at hentry
    simp [Pending.register_response, hr, hentry, hab]
    simpa using hab

/-- Witness for C8: one waiter for identifier 1, abandoned, then a response
for identifier 1 arrives. -/
theorem register_abandoned_fatal_witness :
    Pending.register_response (Pending.drop_waiter sampleState1 0) fooResponse = none :=
  register_abandoned_fatal (Pending.drop_waiter sampleState1 0) fooResponse 0 []
    (by decide) rfl rfl

/-- Claim C9: once the lifecycle state is `Exited`, polling the client request
stream reports end-of-stream and leaves the stream unchanged (so every later
poll does the same), even when the queue still holds messages. -/
theorem exited_stream_ends {α : Type} (s : ClientRequestStream α)
    (h : s.state = State.Exited) :
    poll_next s = (Poll.ready none, s) := by
  simp [poll_next, h]

/-- Witness for C9 at a concrete exited stream with a non-empty queue. -/
theorem exited_stream_ends_witness :
    poll_next sampleStream = (Poll.ready none, sampleStream) :=
  exited_stream_ends sampleStream rfl

/-- Claim C10: `await_response` accepts the null identifier like any other
key, appending a handle under it; but no non-panicking `register_response`
ever changes the null entry, and (with globally distinct handles) never
fulfils a handle registered under the null identifier. -/
theorem null_waiter_never_fulfilled :
    (∀ s : Pending.PendingState,
        Pending.lookupEntry (Pending.await_response s ResponseId.Null).2.table ResponseId.Null =
          some (((Pending.lookupEntry s.table ResponseId.Null).getD []) ++ [s.nextHandle]))
    ∧ (∀ (s : Pending.PendingState) (r : Pending.ResponseMessage) (s' : Pending.PendingState),
        Pending.register_response s r = some s' →
        Pending.lookupEntry s'.table ResponseId.Null =
          Pending.lookupEntry s.table ResponseId.Null)
    ∧ (∀ (s : Pending.PendingState) (r : Pending.ResponseMessage) (s' : Pending.PendingState)
        (txs : List Nat) (tx : Nat),
        Pending.register_response s r = some s' →
        (Pending.allHandles s.table).Nodup →
        Pending.lookupEntry s.table ResponseId.Null = some txs → tx ∈ txs →
        Pending.resolved s' tx = Pending.resolved s tx) := by
  refine ⟨?_, ?_, ?_⟩
  · intro s
    cases hl : Pending.lookupEntry s.table ResponseId.Null with
    | none =>
      simp only [Pending.await_response, hl]
      simp [Pending.lookupEntry_append_right hl]
    | some txs =>
      simp only [Pending.await_response, hl]
      simp [Pending.lookupEntry_setEntry_self hl]
  · intro s r s' hreg
    rcases Pending.register_response_cases s r s' hreg with ⟨heq, _⟩ |
      ⟨tx, rest, hnn, hl, hnab, htab, _⟩
    · rw [heq]
    · have hne : (ResponseId.Null : Pending.Id) ≠ r.id := fun hc => hnn hc.symm
      rw [htab]
      cases rest with
      | nil => simp [Pending.lookupEntry_removeEntry_ne hne]
      | cons y ys => simp [Pending.lookupEntry_setEntry_ne hne]
  · intro s r s' txs tx hreg hnd hl hmem
    rcases Pending.register_response_cases s r s' hreg with ⟨heq, _⟩ |
      ⟨tx0, rest, hnn, hl0, hnab, htab, hful, _⟩
    · rw [heq]
    · have hne : (ResponseId.Null : Pending.Id) ≠ r.id := fun hc => hnn hc.symm
      have htx : tx ≠ tx0 := by
        intro hc
        subst hc
        exact (Pending.lookupEntry_disjoint hnd hl hl0 hne hmem) (List.mem_cons_self tx rest)
      unfold Pending.resolved
      rw [hful, Pending.lookup_append_single_ne s.fulfilled r htx]

/-- Witness for C10: a null waiter is registered under the null key, a
registration for identifier 1 leaves the null entry alone and does not
resolve the null waiter's handle. -/
theorem null_waiter_never_fulfilled_witness :
    Pending.lookupEntry (Pending.await_response Pending.PendingState.new ResponseId.Null).2.table
        ResponseId.Null =
      some (((Pending.lookupEntry Pending.PendingState.new.table ResponseId.Null).getD [])
        ++ [Pending.PendingState.new.nextHandle])
    ∧ Pending.lookupEntry sampleState2.table ResponseId.Null =
        Pending.lookupEntry sampleState1.table ResponseId.Null
    ∧ Pending.resolved sampleStateNull2 0 = Pending.resolved sampleStateNull 0 :=
  ⟨null_waiter_never_fulfilled.1 Pending.PendingState.new,
   null_waiter_never_fulfilled.2.1 sampleState1 fooResponse sampleState2 rfl,
   null_waiter_never_fulfilled.2.2 sampleStateNull fooResponse sampleStateNull2 [0] 0 rfl
     (by decide) rfl (by decide)⟩
